import Mathlib

/-!
Shallow embedding of `packages/ui/src/providers/global-system-state.tsx`.

The component polls a backend status endpoint, exposes restart/shutdown
actions, and renders one of several screens depending on the polled status
and a handful of boolean flags.  We model one render-plus-effects cycle as
a step of a state machine over a `World` record, with timers represented
as explicit deadlines fired by `tick` events.
-/

namespace GlobalSystemState

/-- Modelled from the spec: MS_PER_SECOND is imported from the date-time
utility module, which is outside src; it is the milliseconds-per-second
constant used for the 10-second default poll interval and the 30-second
shutdown timer. -/
def MS_PER_SECOND : Nat := 1000

/-- Snapshot of the react-query status query object as the component reads
it: `data` (the polled status string, or none while undefined), the
truthiness of `error`, and the `isLoading`, `isError` and `failureCount`
fields.  The query layer itself is an external collaborator. -/
structure Query where
  data : Option String
  error : Bool
  isLoading : Bool
  isError : Bool
  failureCount : Nat
deriving Repr, DecidableEq

/-- Modelled from the spec: guarantees of the external react-query layer
(out of scope of the repository): `isError` mirrors the presence of an
error object, and a query in its initial loading state has produced
neither data nor an error yet. -/
def QueryWF (q : Query) : Prop :=
  q.isError = q.error ∧ (q.isLoading = true → q.data = none ∧ q.error = false)

/-- Render outcomes of `GlobalSystemStateProvider`: the propagated error
(the `throw systemStatusQ.error` path), the checking-backend placeholder,
the terminal shutdown-complete message, the children (pass-through), the
shutting-down screen, the restarting screen, and the unexpected-state
fallback. -/
inductive Render
  | thrown
  | checkingBackend
  | shutdownCompleteMsg
  | childrenView
  | shuttingDownScreen
  | restartingScreen
  | unexpectedState
deriving Repr, DecidableEq

/-- Line 50: `refetchInterval: triggered ? 500 : 10 * MS_PER_SECOND`. -/
def refetchInterval (triggered : Bool) : Nat :=
  if triggered then 500 else 10 * MS_PER_SECOND

/-- Line 104: `triggered === true && status === 'running' ? prevStatus : status`. -/
def statusToShow (triggered : Bool) (status : Option String) (prevStatus : String) :
    Option String :=
  if triggered && status == some "running" then some prevStatus else status

/-- Switch on `statusToShow` at lines 144-181: undefined and "running"
fall through to the children, "shutting-down" and "restarting" to their
progress screens, and every other value to the defensive default. -/
def renderSwitch (sts : Option String) : Render :=
  match sts with
  | none => .childrenView
  | some s =>
    if s = "running" then .childrenView
    else if s = "shutting-down" then .shuttingDownScreen
    else if s = "restarting" then .restartingScreen
    else .unexpectedState

/-- Render logic of the component body in source order: the throw at lines
54-59, the isLoading branch at lines 126-133, the terminal
shutdown-complete branch at lines 135-142, then the switch on
`statusToShow` at lines 144-181. -/
def renderOutput (q : Query) (triggered shutdownComplete : Bool) (prevStatus : String) :
    Render :=
  if q.error && !triggered then .thrown
  else if q.isLoading then .checkingBackend
  else if statusToShow triggered q.data prevStatus == some "shutting-down" && shutdownComplete
  then .shutdownCompleteMsg
  else renderSwitch (statusToShow triggered q.data prevStatus)

/-- Actions carried by the two `setTimeout` calls: the 30-second shutdown
completion (line 99) and the 1-second logout sequence (lines 79-86). -/
inductive TimerAct
  | completeShutdown
  | logout
deriving Repr, DecidableEq

/-- Pending `setTimeout`: absolute deadline plus the action to perform. -/
structure Timer where
  fireAt : Nat
  act : TimerAct
deriving Repr, DecidableEq

/-- Whole-component state: the four state cells of the provider, the
refs of the `usePreviousDistinct` hook, the pending timers, the clock,
and observable external effects (query cancellations, token removal,
navigations).  `shutdownFireAt` records the deadline of the 30-second
shutdown timer when it is scheduled; `lastRender` records the outcome of
the most recent render. -/
structure World where
  triggered : Bool
  shouldLogoutOnRunning : Bool
  startShutdownTimer : Bool
  shutdownComplete : Bool
  mounted : Bool
  prevRef : Option String
  curRef : Option String
  timers : List Timer
  now : Nat
  statusCancels : Nat
  cancelAllCount : Nat
  jwtRemoved : Bool
  navigations : Nat
  shutdownFireAt : Option Nat
  lastRender : Option Render
deriving Repr, DecidableEq

/-- Modelled from the spec: the `usePreviousDistinct` hook of the external
react-use library (line 62), which tracks the last distinct status value
observed.  On first mount it stores the current value and returns
undefined; afterwards, when the value changes, the stored current value
becomes the previous one.  In the component both "no previous value yet"
and "the previous value was undefined" read back as undefined, so a single
`Option String` faithfully represents the returned previous value. -/
def updatePrevDistinct (w : World) (v : Option String) : World :=
  if !w.mounted then { w with mounted := true, curRef := v }
  else if v ≠ w.curRef then { w with prevRef := w.curRef, curRef := v }
  else w

/-- Effects of one committed render, in declaration order, each condition
evaluated on the committed render snapshot `w1` (effects 1 and 2 both
write `shouldLogoutOnRunning` but their conditions are mutually exclusive
on the status, and effect 3 writes disjoint fields):
effect 1 (lines 64-71) records that a logout is owed;
effect 2 (lines 73-89) clears the flag and schedules the 1-second logout
timeout;
effect 3 (lines 92-101) starts the 30-second shutdown timer when the
status endpoint starts failing during shutdown. -/
def runEffects (w1 : World) (q : Query) : World :=
  let w2 :=
    if q.data != some "running" && w1.triggered && !w1.shouldLogoutOnRunning
    then { w1 with shouldLogoutOnRunning := true } else w1
  let w3 :=
    if q.data == some "running" && w1.shouldLogoutOnRunning
    then { w2 with shouldLogoutOnRunning := false,
                   timers := w2.timers ++ [⟨w2.now + 1000, .logout⟩] }
    else w2
  if q.data == some "shutting-down" && !w1.startShutdownTimer
       && (q.isError || decide (0 < q.failureCount))
  then { w3 with startShutdownTimer := true,
                 timers := w3.timers ++ [⟨w3.now + 30 * MS_PER_SECOND, .completeShutdown⟩],
                 shutdownFireAt := some (w3.now + 30 * MS_PER_SECOND) }
  else w3

/-- One render cycle with query result `q`.  When the query is in error
and no transition was triggered, the render throws (lines 54-59): the
error propagates to an ancestor error boundary, the hook below the throw
does not run and no effects of this render are committed.  Otherwise the
`usePreviousDistinct` refs are updated, the render outcome is computed
with `prevStatus = previous distinct value or "running"` (line 62), and
the three effects run. -/
def observeStep (w : World) (q : Query) : World :=
  if q.error && !w.triggered then { w with lastRender := some .thrown }
  else
    let w1 := updatePrevDistinct w q.data
    let r := renderOutput q w1.triggered w1.shutdownComplete (w1.prevRef.getD "running")
    { runEffects w1 q with lastRender := some r }

/-- Body of a firing timeout: the 30-second one sets `shutdownComplete`
(line 99); the 1-second one cancels pending queries, removes the JWT and
navigates to the root path (lines 79-86). -/
def fireAct (a : TimerAct) (w : World) : World :=
  match a with
  | .completeShutdown => { w with shutdownComplete := true }
  | .logout =>
    { w with cancelAllCount := w.cancelAllCount + 1,
             jwtRemoved := true,
             navigations := w.navigations + 1 }

/-- Runs the bodies of a list of due timeouts in order. -/
def fireAll (w : World) (l : List Timer) : World :=
  l.foldl (fun acc tm => fireAct tm.act acc) w

/-- Advances the clock by `d` milliseconds and fires every pending
timeout whose deadline has been reached. -/
def tickStep (w : World) (d : Nat) : World :=
  let t := w.now + d
  let due := w.timers.filter (fun tm => decide (tm.fireAt ≤ t))
  let rest := w.timers.filter (fun tm => !(decide (tm.fireAt ≤ t)))
  fireAll { w with now := t, timers := rest } due

/-- External events driving the component: a render with a fresh query
snapshot, the passage of time, an invocation of `restart()` or
`shutdown()` (whose `onMutate` callback sets `triggered`, lines 29-31,
before the mutation resolves), and the resolution of a mutation (whose
`onSuccess` callback cancels the in-flight status query, lines 36-40). -/
inductive Event
  | observe (q : Query)
  | tick (d : Nat)
  | invokeRestart
  | invokeShutdown
  | mutationSuccess
deriving Repr, DecidableEq

/-- Transition function of the component. -/
def step (w : World) (e : Event) : World :=
  match e with
  | .observe q => observeStep w q
  | .tick d => tickStep w d
  | .invokeRestart => { w with triggered := true }
  | .invokeShutdown => { w with triggered := true }
  | .mutationSuccess => { w with statusCancels := w.statusCancels + 1 }

/-- Runs a sequence of events. -/
def run (w : World) (evs : List Event) : World :=
  evs.foldl step w

/-- Initial state at mount: all four state cells at their `useState`
initial value `false`, except `shouldLogoutOnRunning` which is read from
persistent local storage (line 25) and may therefore start at either
value `b`. -/
def init (b : Bool) : World :=
  { triggered := false
    shouldLogoutOnRunning := b
    startShutdownTimer := false
    shutdownComplete := false
    mounted := false
    prevRef := none
    curRef := none
    timers := []
    now := 0
    statusCancels := 0
    cancelAllCount := 0
    jwtRemoved := false
    navigations := 0
    shutdownFireAt := none
    lastRender := none }

/-- States reachable from some mount state. -/
def Reachable (w : World) : Prop :=
  ∃ b evs, run (init b) evs = w

/-- Number of pending logout timeouts. -/
def countLogout (l : List Timer) : Nat :=
  l.countP (fun tm => tm.act == TimerAct.logout)

/-- Whether some pending timeout is the shutdown-completion one. -/
def hasComplete (l : List Timer) : Bool :=
  l.any (fun tm => tm.act == TimerAct.completeShutdown)

theorem fireAct_now (a : TimerAct) (w : World) : (fireAct a w).now = w.now := by
  cases a <;> rfl

theorem fireAct_timers (a : TimerAct) (w : World) : (fireAct a w).timers = w.timers := by
  cases a <;> rfl

theorem fireAct_triggered (a : TimerAct) (w : World) :
    (fireAct a w).triggered = w.triggered := by
  cases a <;> rfl

theorem fireAct_startShutdownTimer (a : TimerAct) (w : World) :
    (fireAct a w).startShutdownTimer = w.startShutdownTimer := by
  cases a <;> rfl

theorem fireAct_lastRender (a : TimerAct) (w : World) :
    (fireAct a w).lastRender = w.lastRender := by
  cases a <;> rfl

theorem fireAct_shutdownComplete (a : TimerAct) (w : World) :
    (fireAct a w).shutdownComplete = (w.shutdownComplete || (a == TimerAct.completeShutdown)) := by
  cases a <;> simp [fireAct]

theorem fireAct_navigations (a : TimerAct) (w : World) :
    (fireAct a w).navigations = w.navigations + (if a == TimerAct.logout then 1 else 0) := by
  cases a <;> simp [fireAct]

theorem fireAct_jwtRemoved (a : TimerAct) (w : World) :
    (fireAct a w).jwtRemoved = (w.jwtRemoved || (a == TimerAct.logout)) := by
  cases a <;> simp [fireAct]

theorem fireAct_cancelAllCount (a : TimerAct) (w : World) :
    (fireAct a w).cancelAllCount = w.cancelAllCount + (if a == TimerAct.logout then 1 else 0) := by
  cases a <;> simp [fireAct]

theorem fireAll_cons (w : World) (tm : Timer) (l : List Timer) :
    fireAll w (tm :: l) = fireAll (fireAct tm.act w) l := rfl

theorem fireAll_now (w : World) (l : List Timer) : (fireAll w l).now = w.now := by
  induction l generalizing w with
  | nil => rfl
  | cons tm l ih => rw [fireAll_cons, ih, fireAct_now]

theorem fireAll_timers (w : World) (l : List Timer) : (fireAll w l).timers = w.timers := by
  induction l generalizing w with
  | nil => rfl
  | cons tm l ih => rw [fireAll_cons, ih, fireAct_timers]

theorem fireAll_triggered (w : World) (l : List Timer) :
    (fireAll w l).triggered = w.triggered := by
  induction l generalizing w with
  | nil => rfl
  | cons tm l ih => rw [fireAll_cons, ih, fireAct_triggered]

theorem fireAll_startShutdownTimer (w : World) (l : List Timer) :
    (fireAll w l).startShutdownTimer = w.startShutdownTimer := by
  induction l generalizing w with
  | nil => rfl
  | cons tm l ih => rw [fireAll_cons, ih, fireAct_startShutdownTimer]

theorem fireAll_lastRender (w : World) (l : List Timer) :
    (fireAll w l).lastRender = w.lastRender := by
  induction l generalizing w with
  | nil => rfl
  | cons tm l ih => rw [fireAll_cons, ih, fireAct_lastRender]

theorem fireAll_shutdownComplete (w : World) (l : List Timer) :
    (fireAll w l).shutdownComplete = (w.shutdownComplete || hasComplete l) := by
  induction l generalizing w with
  | nil => simp [fireAll, hasComplete]
  | cons tm l ih =>
    rw [fireAll_cons, ih, fireAct_shutdownComplete]
    simp [hasComplete, Bool.or_assoc]

theorem fireAll_navigations (w : World) (l : List Timer) :
    (fireAll w l).navigations = w.navigations + countLogout l := by
  induction l generalizing w with
  | nil => simp [fireAll, countLogout]
  | cons tm l ih =>
    rw [fireAll_cons, ih, fireAct_navigations]
    simp [countLogout, List.countP_cons]
    omega

theorem fireAll_jwtRemoved (w : World) (l : List Timer) :
    (fireAll w l).jwtRemoved = (w.jwtRemoved || l.any (fun tm => tm.act == TimerAct.logout)) := by
  induction l generalizing w with
  | nil => simp [fireAll]
  | cons tm l ih =>
    rw [fireAll_cons, ih, fireAct_jwtRemoved]
    simp [Bool.or_assoc]

theorem fireAll_cancelAllCount (w : World) (l : List Timer) :
    (fireAll w l).cancelAllCount = w.cancelAllCount + countLogout l := by
  induction l generalizing w with
  | nil => simp [fireAll, countLogout]
  | cons tm l ih =>
    rw [fireAll_cons, ih, fireAct_cancelAllCount]
    simp [countLogout, List.countP_cons]
    omega

theorem tickStep_now (w : World) (d : Nat) : (tickStep w d).now = w.now + d := by
  simp only [tickStep]
  rw [fireAll_now]

theorem tickStep_timers (w : World) (d : Nat) :
    (tickStep w d).timers = w.timers.filter (fun tm => !(decide (tm.fireAt ≤ w.now + d))) := by
  simp only [tickStep]
  rw [fireAll_timers]

theorem tickStep_triggered (w : World) (d : Nat) :
    (tickStep w d).triggered = w.triggered := by
  simp only [tickStep]
  rw [fireAll_triggered]

theorem tickStep_startShutdownTimer (w : World) (d : Nat) :
    (tickStep w d).startShutdownTimer = w.startShutdownTimer := by
  simp only [tickStep]
  rw [fireAll_startShutdownTimer]

theorem tickStep_lastRender (w : World) (d : Nat) :
    (tickStep w d).lastRender = w.lastRender := by
  simp only [tickStep]
  rw [fireAll_lastRender]

theorem tickStep_shutdownComplete (w : World) (d : Nat) :
    (tickStep w d).shutdownComplete =
      (w.shutdownComplete ||
        hasComplete (w.timers.filter (fun tm => decide (tm.fireAt ≤ w.now + d)))) := by
  simp only [tickStep]
  rw [fireAll_shutdownComplete]

theorem tickStep_navigations (w : World) (d : Nat) :
    (tickStep w d).navigations =
      w.navigations + countLogout (w.timers.filter (fun tm => decide (tm.fireAt ≤ w.now + d))) := by
  simp only [tickStep]
  rw [fireAll_navigations]

theorem tickStep_jwtRemoved (w : World) (d : Nat) :
    (tickStep w d).jwtRemoved =
      (w.jwtRemoved ||
        (w.timers.filter (fun tm => decide (tm.fireAt ≤ w.now + d))).any
          (fun tm => tm.act == TimerAct.logout)) := by
  simp only [tickStep]
  rw [fireAll_jwtRemoved]

theorem tickStep_cancelAllCount (w : World) (d : Nat) :
    (tickStep w d).cancelAllCount =
      w.cancelAllCount + countLogout (w.timers.filter (fun tm => decide (tm.fireAt ≤ w.now + d))) := by
  simp only [tickStep]
  rw [fireAll_cancelAllCount]

theorem updatePrev_triggered (w : World) (v : Option String) :
    (updatePrevDistinct w v).triggered = w.triggered := by
  simp only [updatePrevDistinct]
  split_ifs <;> rfl

theorem updatePrev_shouldLogout (w : World) (v : Option String) :
    (updatePrevDistinct w v).shouldLogoutOnRunning = w.shouldLogoutOnRunning := by
  simp only [updatePrevDistinct]
  split_ifs <;> rfl

theorem updatePrev_startShutdownTimer (w : World) (v : Option String) :
    (updatePrevDistinct w v).startShutdownTimer = w.startShutdownTimer := by
  simp only [updatePrevDistinct]
  split_ifs <;> rfl

theorem updatePrev_shutdownComplete (w : World) (v : Option String) :
    (updatePrevDistinct w v).shutdownComplete = w.shutdownComplete := by
  simp only [updatePrevDistinct]
  split_ifs <;> rfl

theorem updatePrev_timers (w : World) (v : Option String) :
    (updatePrevDistinct w v).timers = w.timers := by
  simp only [updatePrevDistinct]
  split_ifs <;> rfl

theorem updatePrev_now (w : World) (v : Option String) :
    (updatePrevDistinct w v).now = w.now := by
  simp only [updatePrevDistinct]
  split_ifs <;> rfl

theorem updatePrev_shutdownFireAt (w : World) (v : Option String) :
    (updatePrevDistinct w v).shutdownFireAt = w.shutdownFireAt := by
  simp only [updatePrevDistinct]
  split_ifs <;> rfl

theorem updatePrev_none (w : World) (hc : w.curRef = none) :
    (updatePrevDistinct w none).prevRef = w.prevRef ∧
    (updatePrevDistinct w none).curRef = none := by
  simp only [updatePrevDistinct]
  split_ifs <;> simp_all

theorem updatePrev_first_some (w : World) (v : Option String)
    (hp : w.prevRef = none) (hc : w.curRef = none) :
    (updatePrevDistinct w v).prevRef = none := by
  simp only [updatePrevDistinct]
  split_ifs <;> simp_all

theorem runEffects_now (w : World) (q : Query) : (runEffects w q).now = w.now := by
  simp only [runEffects]
  split_ifs <;> rfl

theorem runEffects_triggered (w : World) (q : Query) :
    (runEffects w q).triggered = w.triggered := by
  simp only [runEffects]
  split_ifs <;> rfl

theorem runEffects_shutdownComplete (w : World) (q : Query) :
    (runEffects w q).shutdownComplete = w.shutdownComplete := by
  simp only [runEffects]
  split_ifs <;> rfl

theorem runEffects_prevRef (w : World) (q : Query) :
    (runEffects w q).prevRef = w.prevRef := by
  simp only [runEffects]
  split_ifs <;> rfl

theorem runEffects_curRef (w : World) (q : Query) :
    (runEffects w q).curRef = w.curRef := by
  simp only [runEffects]
  split_ifs <;> rfl

theorem runEffects_navigations (w : World) (q : Query) :
    (runEffects w q).navigations = w.navigations := by
  simp only [runEffects]
  split_ifs <;> rfl

theorem runEffects_jwtRemoved (w : World) (q : Query) :
    (runEffects w q).jwtRemoved = w.jwtRemoved := by
  simp only [runEffects]
  split_ifs <;> rfl

theorem runEffects_cancelAllCount (w : World) (q : Query) :
    (runEffects w q).cancelAllCount = w.cancelAllCount := by
  simp only [runEffects]
  split_ifs <;> rfl

/-- Characterization used by the clean-state invariant: either the
shutdown timer effect fired, or the shutdown flag and timer list are
untouched except possibly for an appended logout timeout. -/
theorem runEffects_char (w : World) (q : Query) :
    (runEffects w q).startShutdownTimer = true ∨
    ((runEffects w q).startShutdownTimer = w.startShutdownTimer ∧
      ((runEffects w q).timers = w.timers ∨
        (runEffects w q).timers = w.timers ++ [⟨w.now + 1000, TimerAct.logout⟩])) := by
  simp only [runEffects]
  split_ifs <;> simp

/-- Effect 3 fires whenever the committed render saw a shutting-down
status, a not-yet-started timer and a failing probe. -/
theorem runEffects_fires (w : World) (q : Query)
    (hq : q.data = some "shutting-down") (hns : w.startShutdownTimer = false)
    (hf : q.isError = true ∨ 0 < q.failureCount) :
    (runEffects w q).startShutdownTimer = true ∧
    (runEffects w q).timers =
      w.timers ++ [⟨w.now + 30 * MS_PER_SECOND, TimerAct.completeShutdown⟩] ∧
    (runEffects w q).shutdownFireAt = some (w.now + 30 * MS_PER_SECOND) := by
  have hf' : (q.isError || decide (0 < q.failureCount)) = true := by
    rcases hf with h | h
    · simp [h]
    · simp [h]
  simp only [runEffects, hq, hns, hf']
  split_ifs <;> simp_all

/-- Effect 2 fires whenever the committed render saw a running status
with a pending logout flag, and effects 1 and 3 do not. -/
theorem runEffects_logout (w : World) (q : Query)
    (hd : q.data = some "running") (hsl : w.shouldLogoutOnRunning = true) :
    runEffects w q =
      { w with shouldLogoutOnRunning := false,
               timers := w.timers ++ [⟨w.now + 1000, TimerAct.logout⟩] } := by
  simp [runEffects, hd, hsl]

theorem observeStep_throw (w : World) (q : Query)
    (he : (q.error && !w.triggered) = true) :
    observeStep w q = { w with lastRender := some Render.thrown } := by
  unfold observeStep
  rw [he]
  simp

theorem observeStep_eq (w : World) (q : Query)
    (he : (q.error && !w.triggered) = false) :
    observeStep w q =
      { runEffects (updatePrevDistinct w q.data) q with
        lastRender := some (renderOutput q
          (updatePrevDistinct w q.data).triggered
          (updatePrevDistinct w q.data).shutdownComplete
          ((updatePrevDistinct w q.data).prevRef.getD "running")) } := by
  unfold observeStep
  rw [he]
  simp

theorem observeStep_now (w : World) (q : Query) : (observeStep w q).now = w.now := by
  simp only [observeStep, runEffects, updatePrevDistinct]
  split_ifs <;> rfl

theorem observeStep_triggered (w : World) (q : Query) :
    (observeStep w q).triggered = w.triggered := by
  simp only [observeStep, runEffects, updatePrevDistinct]
  split_ifs <;> rfl

theorem observeStep_shutdownComplete (w : World) (q : Query) :
    (observeStep w q).shutdownComplete = w.shutdownComplete := by
  simp only [observeStep, runEffects, updatePrevDistinct]
  split_ifs <;> rfl

theorem observeStep_navigations (w : World) (q : Query) :
    (observeStep w q).navigations = w.navigations := by
  simp only [observeStep, runEffects, updatePrevDistinct]
  split_ifs <;> rfl

theorem observeStep_jwtRemoved (w : World) (q : Query) :
    (observeStep w q).jwtRemoved = w.jwtRemoved := by
  simp only [observeStep, runEffects, updatePrevDistinct]
  split_ifs <;> rfl

theorem observeStep_cancelAllCount (w : World) (q : Query) :
    (observeStep w q).cancelAllCount = w.cancelAllCount := by
  simp only [observeStep, runEffects, updatePrevDistinct]
  split_ifs <;> rfl

theorem run_cons (w : World) (e : Event) (evs : List Event) :
    run w (e :: evs) = run (step w e) evs := rfl

theorem renderSwitch_ne (sts : Option String) :
    renderSwitch sts ≠ Render.shutdownCompleteMsg ∧
    renderSwitch sts ≠ Render.thrown ∧
    renderSwitch sts ≠ Render.checkingBackend := by
  cases sts with
  | none => simp [renderSwitch]
  | some s =>
    simp only [renderSwitch]
    split_ifs <;> simp

/-- Render outcomes equal to the terminal message force the
`shutdownComplete` flag. -/
theorem renderOutput_complete_sc (q : Query) (t sc : Bool) (prev : String)
    (h : renderOutput q t sc prev = Render.shutdownCompleteMsg) : sc = true := by
  unfold renderOutput at h
  by_cases h1 : (q.error && !t) = true
  · rw [if_pos h1] at h
    exact absurd h (by decide)
  · rw [if_neg h1] at h
    by_cases h2 : q.isLoading = true
    · rw [if_pos h2] at h
      exact absurd h (by decide)
    · rw [if_neg h2] at h
      by_cases h3 : (statusToShow t q.data prev == some "shutting-down" && sc) = true
      · exact (Bool.and_eq_true _ _ |>.mp h3).2
      · rw [if_neg h3] at h
        exact absurd h (renderSwitch_ne _).1

/-- Invariant of reachable states: while the shutdown timer has not been
started, the completion flag is down and no completion timeout is
pending. -/
def CleanInv (w : World) : Prop :=
  w.startShutdownTimer = false →
    w.shutdownComplete = false ∧ ∀ tm ∈ w.timers, tm.act ≠ TimerAct.completeShutdown

theorem cleanInv_step (w : World) (e : Event) (h : CleanInv w) : CleanInv (step w e) := by
  cases e with
  | observe q =>
    by_cases he : (q.error && !w.triggered) = true
    · rw [step, observeStep_throw w q he]
      intro hs
      exact h hs
    · rw [step, observeStep_eq w q (by simpa using he)]
      intro hs
      rcases runEffects_char (updatePrevDistinct w q.data) q with hc | ⟨hc, ht⟩
      · rw [show ({ runEffects (updatePrevDistinct w q.data) q with
            lastRender := some _ } : World).startShutdownTimer =
            (runEffects (updatePrevDistinct w q.data) q).startShutdownTimer from rfl] at hs
        rw [hc] at hs
        cases hs
      · have hs' : w.startShutdownTimer = false := by
          rw [← updatePrev_startShutdownTimer w q.data, ← hc]
          exact hs
        obtain ⟨hsc, htm⟩ := h hs'
        constructor
        · show (runEffects (updatePrevDistinct w q.data) q).shutdownComplete = false
          rw [runEffects_shutdownComplete, updatePrev_shutdownComplete]
          exact hsc
        · show ∀ tm ∈ (runEffects (updatePrevDistinct w q.data) q).timers, _
          rcases ht with ht | ht <;>
            rw [ht, updatePrev_timers] <;> intro tm hm
          · exact htm tm hm
          · rcases List.mem_append.mp hm with hm | hm
            · exact htm tm hm
            · simp only [List.mem_singleton] at hm
              subst hm
              simp
  | tick d =>
    intro hs
    simp only [step] at hs ⊢
    rw [tickStep_startShutdownTimer] at hs
    obtain ⟨hsc, htm⟩ := h hs
    constructor
    · rw [tickStep_shutdownComplete, hsc]
      simp only [Bool.false_or]
      simp only [hasComplete, List.any_eq_false]
      intro tm hm
      have := htm tm (List.mem_filter.mp hm).1
      simpa using this
    · intro tm hm
      rw [tickStep_timers] at hm
      exact htm tm (List.mem_filter.mp hm).1
  | invokeRestart => intro hs; exact h hs
  | invokeShutdown => intro hs; exact h hs
  | mutationSuccess => intro hs; exact h hs

theorem cleanInv_run (w : World) (evs : List Event) (h : CleanInv w) :
    CleanInv (run w evs) := by
  induction evs generalizing w with
  | nil => exact h
  | cons e evs ih => exact ih (step w e) (cleanInv_step w e h)

theorem reachable_clean (w : World) (h : Reachable w) : CleanInv w := by
  obtain ⟨b, evs, hw⟩ := h
  rw [← hw]
  apply cleanInv_run
  intro hs
  exact ⟨rfl, by intro tm hm; simp [init] at hm⟩

theorem runEffects_start_mono (w : World) (q : Query) (h : w.startShutdownTimer = true) :
    (runEffects w q).startShutdownTimer = true := by
  simp only [runEffects]
  split_ifs <;> simp_all

theorem runEffects_timers_started (w : World) (q : Query)
    (h : w.startShutdownTimer = true) :
    (runEffects w q).timers = w.timers ∨
    (runEffects w q).timers = w.timers ++ [⟨w.now + 1000, TimerAct.logout⟩] := by
  simp only [runEffects]
  split_ifs <;> simp_all

/-- Invariant holding once the 30-second shutdown timeout has been
scheduled with deadline `f`: the timer-start flag stays up, every pending
completion timeout fires at `f`, and neither the completion flag nor the
terminal render can appear before `f`. -/
def TimerInv (f : Nat) (w : World) : Prop :=
  w.startShutdownTimer = true ∧
  (∀ tm ∈ w.timers, tm.act = TimerAct.completeShutdown → tm.fireAt = f) ∧
  (w.shutdownComplete = true → f ≤ w.now) ∧
  (w.lastRender = some Render.shutdownCompleteMsg → f ≤ w.now)

theorem timerInv_step (f : Nat) (w : World) (e : Event) (h : TimerInv f w) :
    TimerInv f (step w e) := by
  obtain ⟨h1, h2, h3, h4⟩ := h
  cases e with
  | observe q =>
    by_cases he : (q.error && !w.triggered) = true
    · rw [step, observeStep_throw w q he]
      exact ⟨h1, h2, h3, fun hl => by simp at hl⟩
    · have he' : (q.error && !w.triggered) = false := by simpa using he
      rw [step, observeStep_eq w q he']
      have e1 : (updatePrevDistinct w q.data).startShutdownTimer = true := by
        rw [updatePrev_startShutdownTimer]
        exact h1
      refine ⟨runEffects_start_mono _ q e1, ?_, ?_, ?_⟩
      · show ∀ tm ∈ (runEffects (updatePrevDistinct w q.data) q).timers,
          tm.act = TimerAct.completeShutdown → tm.fireAt = f
        rcases runEffects_timers_started (updatePrevDistinct w q.data) q e1 with ht | ht
        · simp only [ht, updatePrev_timers]
          exact h2
        · simp only [ht, updatePrev_timers, updatePrev_now]
          intro tm hm hact
          rcases List.mem_append.mp hm with hm | hm
          · exact h2 tm hm hact
          · simp only [List.mem_singleton] at hm
            subst hm
            simp at hact
      · show (runEffects (updatePrevDistinct w q.data) q).shutdownComplete = true →
          f ≤ (runEffects (updatePrevDistinct w q.data) q).now
        simp only [runEffects_shutdownComplete, runEffects_now, updatePrev_shutdownComplete,
          updatePrev_now]
        exact h3
      · intro hl
        have hr := Option.some.inj hl
        have hsc := renderOutput_complete_sc _ _ _ _ hr
        rw [updatePrev_shutdownComplete] at hsc
        show f ≤ (runEffects (updatePrevDistinct w q.data) q).now
        simp only [runEffects_now, updatePrev_now]
        exact h3 hsc
  | tick d =>
    simp only [step]
    refine ⟨?_, ?_, ?_, ?_⟩
    · rw [tickStep_startShutdownTimer]
      exact h1
    · intro tm hm hact
      rw [tickStep_timers] at hm
      exact h2 tm (List.mem_filter.mp hm).1 hact
    · intro hsc
      rw [tickStep_shutdownComplete] at hsc
      rw [tickStep_now]
      rcases Bool.or_eq_true _ _ |>.mp hsc with hsc | hsc
      · exact le_trans (h3 hsc) (Nat.le_add_right _ _)
      · simp only [hasComplete, List.any_eq_true] at hsc
        obtain ⟨tm, hm, hact⟩ := hsc
        have hmem := (List.mem_filter.mp hm).1
        have hle : tm.fireAt ≤ w.now + d := by
          have := (List.mem_filter.mp hm).2
          simpa using this
        have hfa : tm.fireAt = f := h2 tm hmem (by simpa using hact)
        omega
    · intro hl
      rw [tickStep_lastRender] at hl
      rw [tickStep_now]
      exact le_trans (h4 hl) (Nat.le_add_right _ _)
  | invokeRestart => exact ⟨h1, h2, h3, h4⟩
  | invokeShutdown => exact ⟨h1, h2, h3, h4⟩
  | mutationSuccess => exact ⟨h1, h2, h3, h4⟩

theorem timerInv_run (f : Nat) (w : World) (evs : List Event) (h : TimerInv f w) :
    TimerInv f (run w evs) := by
  induction evs generalizing w with
  | nil => exact h
  | cons e evs ih => exact ih (step w e) (timerInv_step f w e h)

/-- C1 counterexample: in the claim's exact scenario (triggered true,
polled status "running", previous status "shutting-down", fetch settled)
with shutdownComplete true, the rendered screen is the terminal
shutdown-complete message, not the shutting-down screen: line 135 tests
statusToShow, so the masked "shutting-down" value triggers the terminal
branch before the switch is reached. -/
theorem C1_counterexample :
    (⟨some "running", false, false, false, 0⟩ : Query).data = some "running" ∧
    (⟨some "running", false, false, false, 0⟩ : Query).isLoading = false ∧
    renderOutput ⟨some "running", false, false, false, 0⟩ true true "shutting-down" =
      Render.shutdownCompleteMsg ∧
    renderOutput ⟨some "running", false, false, false, 0⟩ true true "shutting-down" ≠
      Render.shuttingDownScreen := by
  decide

/-- C1 amended: the computed statusToShow equals previousStatus when
triggered is true and the polled status is "running", and equals the
polled status otherwise; in particular, when triggered is true, the
status is "running", the previous status is "shutting-down" and the fetch
is settled, the rendered screen is the shutting-down screen while
shutdownComplete is false and the terminal shutdown-complete message once
shutdownComplete is true — in neither case the children. -/
theorem C1_statusToShow_masking (q : Query) (prev : String) (t sc : Bool)
    (hl : q.isLoading = false) :
    (t = true ∧ q.data = some "running" → statusToShow t q.data prev = some prev) ∧
    (¬(t = true ∧ q.data = some "running") → statusToShow t q.data prev = q.data) ∧
    (t = true → q.data = some "running" → prev = "shutting-down" → sc = false →
      renderOutput q t sc prev = Render.shuttingDownScreen ∧
      renderOutput q t sc prev ≠ Render.childrenView) ∧
    (t = true → q.data = some "running" → prev = "shutting-down" → sc = true →
      renderOutput q t sc prev = Render.shutdownCompleteMsg ∧
      renderOutput q t sc prev ≠ Render.childrenView) := by
  refine ⟨?_, ?_, ?_, ?_⟩
  · rintro ⟨ht, hd⟩
    simp [statusToShow, ht, hd]
  · intro hn
    rw [statusToShow, if_neg]
    intro hc
    rcases Bool.and_eq_true _ _ |>.mp hc with ⟨ht, hd⟩
    exact hn ⟨ht, by simpa using hd⟩
  · intro ht hd hp hsc
    subst ht
    subst hp
    subst hsc
    have hr : renderOutput q true false "shutting-down" = Render.shuttingDownScreen := by
      simp [renderOutput, statusToShow, renderSwitch, hd, hl]
    exact ⟨hr, by rw [hr]; decide⟩
  · intro ht hd hp hsc
    subst ht
    subst hp
    subst hsc
    have hr : renderOutput q true true "shutting-down" = Render.shutdownCompleteMsg := by
      simp [renderOutput, statusToShow, hd, hl]
    exact ⟨hr, by rw [hr]; decide⟩

/-- Witness for C1 amended at a concrete input, covering both the
shutdownComplete = false and the shutdownComplete = true case. -/
theorem C1_witness :
    statusToShow true (some "running") "shutting-down" = some "shutting-down" ∧
    renderOutput ⟨some "running", false, false, false, 0⟩ true false "shutting-down" =
      Render.shuttingDownScreen ∧
    renderOutput ⟨some "running", false, false, false, 0⟩ true true "shutting-down" =
      Render.shutdownCompleteMsg := by
  have h := C1_statusToShow_masking ⟨some "running", false, false, false, 0⟩
    "shutting-down" true false rfl
  have h2 := C1_statusToShow_masking ⟨some "running", false, false, false, 0⟩
    "shutting-down" true true rfl
  exact ⟨h.1 ⟨rfl, rfl⟩, (h.2.2.1 rfl rfl rfl rfl).1, (h2.2.2.2 rfl rfl rfl rfl).1⟩

/-- C2 counterexample: with a transition triggered, previous status
"shutting-down" and the completion flag set, the terminal message is
rendered although the polled status is "running" and the fetch is
settled, refuting the claim that the terminal message appears only when
the polled status itself is "shutting-down". -/
theorem C2_counterexample :
    renderOutput ⟨some "running", false, false, false, 0⟩ true true "shutting-down" =
      Render.shutdownCompleteMsg ∧
    (⟨some "running", false, false, false, 0⟩ : Query).data ≠ some "shutting-down" ∧
    (⟨some "running", false, false, false, 0⟩ : Query).isLoading = false := by
  decide

/-- C2 amended: given the fetch is settled and no untriggered error is
propagating, the terminal message is rendered exactly when the displayed
status (statusToShow, which equals the polled status except that it is
the previous status while triggered with a "running" poll) is
"shutting-down" and shutdownComplete is true. -/
theorem C2_terminal_amended (q : Query) (t sc : Bool) (prev : String)
    (hl : q.isLoading = false) (he : ¬(q.error = true ∧ t = false)) :
    (renderOutput q t sc prev = Render.shutdownCompleteMsg ↔
      statusToShow t q.data prev = some "shutting-down" ∧ sc = true) := by
  have hbe : (q.error && !t) = false := by
    cases hq : q.error
    · simp
    · cases ht : t
      · exact absurd ⟨hq, ht⟩ he
      · simp
  unfold renderOutput
  rw [hbe, hl]
  simp only [Bool.false_eq_true, if_false]
  by_cases hc : (statusToShow t q.data prev == some "shutting-down" && sc) = true
  · rw [if_pos hc]
    rcases Bool.and_eq_true _ _ |>.mp hc with ⟨h1, h2⟩
    have h1' : statusToShow t q.data prev = some "shutting-down" := by simpa using h1
    simp [h1', h2]
  · rw [if_neg hc]
    constructor
    · intro h
      exact absurd h (renderSwitch_ne _).1
    · rintro ⟨h1, h2⟩
      exact absurd (by simp [h1, h2]) hc

/-- Witness for C2 amended at a concrete input. -/
theorem C2_witness :
    renderOutput ⟨some "shutting-down", false, false, false, 0⟩ false true "running" =
      Render.shutdownCompleteMsg := by
  have h := C2_terminal_amended ⟨some "shutting-down", false, false, false, 0⟩ false true
    "running" rfl (by simp)
  exact h.mpr ⟨by decide, rfl⟩

/-- C6: a status query error is propagated (thrown) iff no transition has
been triggered; when triggered, the error is never thrown and instead
feeds the shutdown-completion timer condition: on a shutting-down status
with the timer not yet started, the erroring probe starts it. -/
theorem C6_error_propagation (q : Query) (t sc : Bool) (prev : String) (w : World)
    (he : q.error = true) (hie : q.isError = true) :
    (renderOutput q t sc prev = Render.thrown ↔ t = false) ∧
    (w.triggered = true → w.startShutdownTimer = false → q.data = some "shutting-down" →
      (observeStep w q).startShutdownTimer = true) := by
  constructor
  · constructor
    · intro h
      unfold renderOutput at h
      by_cases h1 : (q.error && !t) = true
      · cases ht : t
        · rfl
        · rw [he, ht] at h1
          simp at h1
      · rw [if_neg h1] at h
        by_cases h2 : q.isLoading = true
        · rw [if_pos h2] at h
          exact absurd h (by decide)
        · rw [if_neg h2] at h
          by_cases h3 : (statusToShow t q.data prev == some "shutting-down" && sc) = true
          · rw [if_pos h3] at h
            exact absurd h (by decide)
          · rw [if_neg h3] at h
            exact absurd h (renderSwitch_ne _).2.1
    · intro ht
      subst ht
      unfold renderOutput
      rw [he]
      simp
  · intro htr hns hq
    have he' : (q.error && !w.triggered) = false := by
      rw [htr]
      simp
    rw [observeStep_eq w q he']
    have e1 : (updatePrevDistinct w q.data).startShutdownTimer = false := by
      rw [updatePrev_startShutdownTimer]
      exact hns
    exact (runEffects_fires (updatePrevDistinct w q.data) q hq e1 (Or.inl hie)).1

/-- Witness for C6 at a concrete input. -/
theorem C6_witness :
    renderOutput ⟨some "shutting-down", true, false, true, 1⟩ true false "running" ≠
      Render.thrown ∧
    (observeStep { init false with triggered := true }
      ⟨some "shutting-down", true, false, true, 1⟩).startShutdownTimer = true := by
  have h := C6_error_propagation ⟨some "shutting-down", true, false, true, 1⟩ true false
    "running" { init false with triggered := true } rfl rfl
  constructor
  · intro hc
    exact absurd (h.1.mp hc) (by decide)
  · exact h.2 rfl rfl rfl

/-- C7: while the initial fetch is in flight (status undefined, query in
its loading state), the rendered output is the checking-backend
placeholder, not an error, transition screen or the children. -/
theorem C7_loading_placeholder (q : Query) (t sc : Bool) (prev : String)
    (hw : QueryWF q) (_hd : q.data = none) (hl : q.isLoading = true) :
    renderOutput q t sc prev = Render.checkingBackend := by
  have he : q.error = false := (hw.2 hl).2
  unfold renderOutput
  rw [he, hl]
  simp

/-- Witness for C7 at a concrete input. -/
theorem C7_witness :
    renderOutput ⟨none, false, true, false, 0⟩ false false "running" =
      Render.checkingBackend :=
  C7_loading_placeholder ⟨none, false, true, false, 0⟩ false false "running"
    ⟨rfl, fun _ => ⟨rfl, rfl⟩⟩ rfl rfl

/-- C8: any status value outside the known set renders the
unexpected-state fallback and does not throw, provided no untriggered
query error is propagating (the throw of lines 54-59 is governed by the
error state alone, not by the status value). -/
theorem C8_unexpected_fallback (q : Query) (t sc : Bool) (prev : String) (s : String)
    (hw : QueryWF q) (hd : q.data = some s)
    (hs1 : s ≠ "running") (hs2 : s ≠ "shutting-down") (hs3 : s ≠ "restarting")
    (he : ¬(q.error = true ∧ t = false)) :
    renderOutput q t sc prev = Render.unexpectedState ∧
    renderOutput q t sc prev ≠ Render.thrown := by
  have hbe : (q.error && !t) = false := by
    cases hq : q.error
    · simp
    · cases ht : t
      · exact absurd ⟨hq, ht⟩ he
      · simp
  have hl : q.isLoading = false := by
    cases hll : q.isLoading
    · rfl
    · have := (hw.2 hll).1
      rw [hd] at this
      cases this
  have hsts : statusToShow t q.data prev = some s := by
    rw [statusToShow, hd, if_neg]
    · intro hc
      rcases Bool.and_eq_true _ _ |>.mp hc with ⟨ht, hc2⟩
      have : some s = some "running" := by simpa using hc2
      exact hs1 (Option.some.inj this)
  have hterm : (statusToShow t q.data prev == some "shutting-down" && sc) = false := by
    rw [hsts]
    cases hsc : sc
    · simp
    · simp [hs2]
  have hmain : renderOutput q t sc prev = Render.unexpectedState := by
    unfold renderOutput
    rw [hbe, hl, hterm]
    simp only [Bool.false_eq_true, if_false]
    rw [hsts]
    simp [renderSwitch, hs1, hs2, hs3]
  exact ⟨hmain, by rw [hmain]; decide⟩

/-- Witness for C8 at a concrete input. -/
theorem C8_witness :
    renderOutput ⟨some "banana", false, false, false, 0⟩ false false "running" =
      Render.unexpectedState :=
  (C8_unexpected_fallback ⟨some "banana", false, false, false, 0⟩ false false "running"
    "banana" ⟨rfl, fun h => nomatch h⟩ rfl (by decide) (by decide) (by decide)
    (by simp)).1

/-- C3 counterexample: with status "shutting-down", a failing probe (query
error present) and the timer not started, but no transition triggered, the
render throws to the error boundary before any effect runs, so no
30-second timer is started, refuting the claim as stated for the
query-error case. -/
theorem C3_counterexample :
    (⟨some "shutting-down", true, false, true, 3⟩ : Query).data = some "shutting-down" ∧
    (⟨some "shutting-down", true, false, true, 3⟩ : Query).isError = true ∧
    (init false).startShutdownTimer = false ∧
    (init false).triggered = false ∧
    (observeStep (init false)
      ⟨some "shutting-down", true, false, true, 3⟩).startShutdownTimer = false ∧
    (observeStep (init false) ⟨some "shutting-down", true, false, true, 3⟩).timers = [] ∧
    (observeStep (init false) ⟨some "shutting-down", true, false, true, 3⟩).lastRender =
      some Render.thrown := by
  decide

/-- C3 amended: in a reachable state with the timer not started, when a
render observes status "shutting-down" with a failing probe (query error
or positive failure count) and the error is not being propagated (a
transition was triggered, or there is no query error), a single one-shot
30-second timer is started; the completion flag and the terminal screen
cannot appear while the clock is short of the deadline, and a tick
reaching the deadline sets the completion flag. -/
theorem C3_shutdown_timer_amended (w : World) (q : Query)
    (hre : Reachable w)
    (hq : q.data = some "shutting-down")
    (hf : q.isError = true ∨ 0 < q.failureCount)
    (hns : w.startShutdownTimer = false)
    (hth : q.error = true → w.triggered = true) :
    (observeStep w q).startShutdownTimer = true ∧
    (observeStep w q).timers =
      w.timers ++ [⟨w.now + 30 * MS_PER_SECOND, TimerAct.completeShutdown⟩] ∧
    (observeStep w q).shutdownFireAt = some (w.now + 30 * MS_PER_SECOND) ∧
    (∀ evs, (run (observeStep w q) evs).now < w.now + 30 * MS_PER_SECOND →
      (run (observeStep w q) evs).shutdownComplete = false ∧
      (run (observeStep w q) evs).lastRender ≠ some Render.shutdownCompleteMsg) ∧
    (∀ d, 30 * MS_PER_SECOND ≤ d →
      (tickStep (observeStep w q) d).shutdownComplete = true) := by
  obtain ⟨hsc, htm⟩ := reachable_clean w hre hns
  have he' : (q.error && !w.triggered) = false := by
    cases hqe : q.error
    · simp
    · rw [hth hqe]
      simp
  have e1 : (updatePrevDistinct w q.data).startShutdownTimer = false := by
    rw [updatePrev_startShutdownTimer]
    exact hns
  have hfires := runEffects_fires (updatePrevDistinct w q.data) q hq e1 hf
  have heq := observeStep_eq w q he'
  have h1 : (observeStep w q).startShutdownTimer = true := by
    rw [heq]
    exact hfires.1
  have h2 : (observeStep w q).timers =
      w.timers ++ [⟨w.now + 30 * MS_PER_SECOND, TimerAct.completeShutdown⟩] := by
    rw [heq]
    show (runEffects (updatePrevDistinct w q.data) q).timers = _
    rw [hfires.2.1, updatePrev_timers, updatePrev_now]
  have h3 : (observeStep w q).shutdownFireAt = some (w.now + 30 * MS_PER_SECOND) := by
    rw [heq]
    show (runEffects (updatePrevDistinct w q.data) q).shutdownFireAt = _
    rw [hfires.2.2, updatePrev_now]
  have hscw : (observeStep w q).shutdownComplete = false := by
    rw [observeStep_shutdownComplete]
    exact hsc
  have hinv : TimerInv (w.now + 30 * MS_PER_SECOND) (observeStep w q) := by
    refine ⟨h1, ?_, ?_, ?_⟩
    · simp only [h2]
      intro tm hm hact
      rcases List.mem_append.mp hm with hm | hm
      · exact absurd hact (htm tm hm)
      · simp only [List.mem_singleton] at hm
        subst hm
        rfl
    · intro hcc
      rw [hscw] at hcc
      simp at hcc
    · intro hl
      rw [heq] at hl
      have hr := Option.some.inj hl
      have hsc1 := renderOutput_complete_sc _ _ _ _ hr
      rw [updatePrev_shutdownComplete] at hsc1
      exact absurd hsc1 (by simp [hsc])
  refine ⟨h1, h2, h3, ?_, ?_⟩
  · intro evs hlt
    obtain ⟨_, _, i3, i4⟩ := timerInv_run _ _ evs hinv
    constructor
    · cases hcc : (run (observeStep w q) evs).shutdownComplete
      · rfl
      · exact absurd (i3 hcc) (by omega)
    · intro hl
      exact absurd (i4 hl) (by omega)
  · intro d hd
    rw [tickStep_shutdownComplete]
    apply Bool.or_eq_true _ _ |>.mpr
    right
    rw [hasComplete, List.any_eq_true]
    refine ⟨⟨w.now + 30 * MS_PER_SECOND, TimerAct.completeShutdown⟩, ?_, by simp⟩
    rw [List.mem_filter]
    constructor
    · rw [h2]
      exact List.mem_append_right _ (List.mem_singleton.mpr rfl)
    · have hle : w.now + 30 * MS_PER_SECOND ≤ (observeStep w q).now + d := by
        rw [observeStep_now]
        omega
      simpa using hle

/-- Witness for C3 amended at a concrete input. -/
theorem C3_witness :
    (observeStep (init false)
      ⟨some "shutting-down", false, false, true, 1⟩).startShutdownTimer = true ∧
    (observeStep (init false)
      ⟨some "shutting-down", false, false, true, 1⟩).shutdownFireAt = some 30000 := by
  have h := C3_shutdown_timer_amended (init false)
    ⟨some "shutting-down", false, false, true, 1⟩
    ⟨false, [], rfl⟩ rfl (Or.inl rfl) rfl (fun hc => nomatch hc)
  exact ⟨h.1, by rw [h.2.2.1]; rfl⟩

/-- C4: when the status becomes "running" (a fresh successful poll, so no
query error) while a logout is owed and no logout timeout is already
pending, the flag is cleared first, a single 1-second logout timeout is
scheduled, nothing is canceled, removed or navigated before the deadline,
and any tick reaching the deadline cancels pending queries, removes the
token and performs exactly one navigation, leaving no logout timeout
pending. -/
theorem C4_logout_flow (w : World) (q : Query)
    (hd : q.data = some "running") (hsl : w.shouldLogoutOnRunning = true)
    (he : q.error = false) (hnl : countLogout w.timers = 0) :
    (observeStep w q).shouldLogoutOnRunning = false ∧
    (observeStep w q).timers = w.timers ++ [⟨w.now + 1000, TimerAct.logout⟩] ∧
    (∀ d, d < 1000 →
      (tickStep (observeStep w q) d).navigations = w.navigations ∧
      (tickStep (observeStep w q) d).jwtRemoved = w.jwtRemoved ∧
      (tickStep (observeStep w q) d).cancelAllCount = w.cancelAllCount) ∧
    (∀ d, 1000 ≤ d →
      (tickStep (observeStep w q) d).navigations = w.navigations + 1 ∧
      (tickStep (observeStep w q) d).jwtRemoved = true ∧
      (tickStep (observeStep w q) d).cancelAllCount = w.cancelAllCount + 1 ∧
      countLogout (tickStep (observeStep w q) d).timers = 0) := by
  have he' : (q.error && !w.triggered) = false := by
    rw [he]
    simp
  have heq := observeStep_eq w q he'
  have hlr := runEffects_logout (updatePrevDistinct w q.data) q hd
    (by rw [updatePrev_shouldLogout]; exact hsl)
  have h1 : (observeStep w q).shouldLogoutOnRunning = false := by
    rw [heq]
    show (runEffects (updatePrevDistinct w q.data) q).shouldLogoutOnRunning = false
    rw [hlr]
  have h2 : (observeStep w q).timers = w.timers ++ [⟨w.now + 1000, TimerAct.logout⟩] := by
    rw [heq]
    show (runEffects (updatePrevDistinct w q.data) q).timers = _
    rw [hlr]
    simp only [updatePrev_timers, updatePrev_now]
  have hfacts : ∀ tm ∈ w.timers, (tm.act == TimerAct.logout) = false := by
    intro tm hm
    have := List.countP_eq_zero.mp hnl tm hm
    simpa using this
  have hnow := observeStep_now w q
  have hnav := observeStep_navigations w q
  have hjwt := observeStep_jwtRemoved w q
  have hcan := observeStep_cancelAllCount w q
  refine ⟨h1, h2, ?_, ?_⟩
  · intro d hdlt
    have hnd : (decide ((⟨w.now + 1000, TimerAct.logout⟩ : Timer).fireAt ≤
        (observeStep w q).now + d)) = false := by
      rw [hnow]
      simp only [decide_eq_false_iff_not]
      show ¬(w.now + 1000 ≤ w.now + d)
      omega
    have hflt : ((observeStep w q).timers.filter
        (fun tm => decide (tm.fireAt ≤ (observeStep w q).now + d))) =
        w.timers.filter (fun tm => decide (tm.fireAt ≤ (observeStep w q).now + d)) := by
      rw [h2, List.filter_append]
      simp [hnd]
    have hc0 : countLogout (w.timers.filter
        (fun tm => decide (tm.fireAt ≤ (observeStep w q).now + d))) = 0 := by
      rw [countLogout, List.countP_eq_zero]
      intro tm hm
      have := hfacts tm (List.mem_filter.mp hm).1
      simp [this]
    have hany : ((w.timers.filter
        (fun tm => decide (tm.fireAt ≤ (observeStep w q).now + d))).any
        (fun tm => tm.act == TimerAct.logout)) = false := by
      rw [List.any_eq_false]
      intro tm hm
      have := hfacts tm (List.mem_filter.mp hm).1
      simp [this]
    refine ⟨?_, ?_, ?_⟩
    · rw [tickStep_navigations, hflt, hc0, hnav]
      omega
    · rw [tickStep_jwtRemoved, hflt, hany, hjwt]
      simp
    · rw [tickStep_cancelAllCount, hflt, hc0, hcan]
      omega
  · intro d hdge
    have hnd : (decide ((⟨w.now + 1000, TimerAct.logout⟩ : Timer).fireAt ≤
        (observeStep w q).now + d)) = true := by
      rw [hnow]
      simp only [decide_eq_true_eq]
      show w.now + 1000 ≤ w.now + d
      omega
    have hflt : ((observeStep w q).timers.filter
        (fun tm => decide (tm.fireAt ≤ (observeStep w q).now + d))) =
        w.timers.filter (fun tm => decide (tm.fireAt ≤ (observeStep w q).now + d)) ++
          [⟨w.now + 1000, TimerAct.logout⟩] := by
      rw [h2, List.filter_append]
      simp [hnd]
    have hc0 : countLogout (w.timers.filter
        (fun tm => decide (tm.fireAt ≤ (observeStep w q).now + d))) = 0 := by
      rw [countLogout, List.countP_eq_zero]
      intro tm hm
      have := hfacts tm (List.mem_filter.mp hm).1
      simp [this]
    have hcnt : countLogout ((observeStep w q).timers.filter
        (fun tm => decide (tm.fireAt ≤ (observeStep w q).now + d))) = 1 := by
      rw [hflt, countLogout, List.countP_append]
      rw [countLogout] at hc0
      rw [hc0]
      rfl
    refine ⟨?_, ?_, ?_, ?_⟩
    · rw [tickStep_navigations, hcnt, hnav]
    · rw [tickStep_jwtRemoved, hflt]
      simp
    · rw [tickStep_cancelAllCount, hcnt, hcan]
    · rw [tickStep_timers, countLogout, List.countP_eq_zero]
      intro tm hm
      have hm' := List.mem_filter.mp hm
      rw [h2] at hm'
      rcases List.mem_append.mp hm'.1 with hmm | hmm
      · have := hfacts tm hmm
        simp [this]
      · simp only [List.mem_singleton] at hmm
        subst hmm
        have := hm'.2
        rw [hnd] at this
        simp at this

/-- Witness for C4 at a concrete input. -/
theorem C4_witness :
    (observeStep (init true)
      ⟨some "running", false, false, false, 0⟩).shouldLogoutOnRunning = false ∧
    (tickStep (observeStep (init true) ⟨some "running", false, false, false, 0⟩)
      1000).navigations = 1 := by
  have h := C4_logout_flow (init true) ⟨some "running", false, false, false, 0⟩
    rfl rfl rfl rfl
  exact ⟨h.1, (h.2.2.2 1000 (by decide)).1⟩

/-- C5: invoking restart() or shutdown() runs onMutate, which sets
triggered immediately, before the mutation resolves; while triggered the
poll interval is 500ms; and the onSuccess of a resolved mutation cancels
the in-flight status query. -/
theorem C5_trigger_poll_cancel (w : World) :
    (step w Event.invokeRestart).triggered = true ∧
    (step w Event.invokeShutdown).triggered = true ∧
    refetchInterval (step w Event.invokeRestart).triggered = 500 ∧
    refetchInterval (step w Event.invokeShutdown).triggered = 500 ∧
    (step w Event.mutationSuccess).statusCancels = w.statusCancels + 1 :=
  ⟨rfl, rfl, rfl, rfl, rfl⟩

/-- C9 counterexample: a complete transition cycle (shutdown invoked,
shutting-down observed, running observed, the 1-second timeout fired with
its navigation performed) ends with triggered still true: no step within
the component sets triggered back to false (the reset at line 81 is
commented out), refuting the claim that each cycle has a step resetting
both flags. -/
theorem C9_counterexample :
    (run (init false) [Event.invokeShutdown,
      Event.observe ⟨some "shutting-down", false, false, false, 0⟩,
      Event.observe ⟨some "running", false, false, false, 0⟩,
      Event.tick 1000]).navigations = 1 ∧
    (run (init false) [Event.invokeShutdown,
      Event.observe ⟨some "shutting-down", false, false, false, 0⟩,
      Event.observe ⟨some "running", false, false, false, 0⟩,
      Event.tick 1000]).jwtRemoved = true ∧
    (run (init false) [Event.invokeShutdown,
      Event.observe ⟨some "shutting-down", false, false, false, 0⟩,
      Event.observe ⟨some "running", false, false, false, 0⟩,
      Event.tick 1000]).triggered = true := by
  decide

/-- C9 amended: each cycle resets shouldLogoutOnRunning within the
component (the logout effect sets it back to false before scheduling the
navigation), but triggered is never reset by any component step: it is
monotone across every event and is cleared only by the full-page
navigation remounting the provider. -/
theorem C9_flags_amended (w : World) (e : Event) (q : Query)
    (ht : w.triggered = true) (hd : q.data = some "running")
    (hsl : w.shouldLogoutOnRunning = true) (he : q.error = false) :
    (step w e).triggered = true ∧
    (observeStep w q).shouldLogoutOnRunning = false := by
  constructor
  · cases e with
    | observe q2 =>
      simp only [step]
      rw [observeStep_triggered]
      exact ht
    | tick d =>
      simp only [step]
      rw [tickStep_triggered]
      exact ht
    | invokeRestart => rfl
    | invokeShutdown => rfl
    | mutationSuccess => exact ht
  · have he' : (q.error && !w.triggered) = false := by
      rw [he]
      simp
    rw [observeStep_eq w q he']
    show (runEffects (updatePrevDistinct w q.data) q).shouldLogoutOnRunning = false
    rw [runEffects_logout (updatePrevDistinct w q.data) q hd
      (by rw [updatePrev_shouldLogout]; exact hsl)]

/-- Witness for C9 amended at a concrete input. -/
theorem C9_witness :
    (step { init true with triggered := true } Event.mutationSuccess).triggered = true ∧
    (observeStep { init true with triggered := true }
      ⟨some "running", false, false, false, 0⟩).shouldLogoutOnRunning = false :=
  C9_flags_amended { init true with triggered := true } Event.mutationSuccess
    ⟨some "running", false, false, false, 0⟩ rfl rfl rfl rfl

theorem observe_loading_step (w : World) (ql : Query)
    (hld : ql.data = none) (hle : ql.error = false)
    (hp : w.prevRef = none) (hc : w.curRef = none) :
    (observeStep w ql).prevRef = none ∧ (observeStep w ql).curRef = none ∧
    (observeStep w ql).shutdownComplete = w.shutdownComplete ∧
    (observeStep w ql).triggered = w.triggered := by
  have he' : (ql.error && !w.triggered) = false := by
    rw [hle]
    simp
  refine ⟨?_, ?_, observeStep_shutdownComplete w ql, observeStep_triggered w ql⟩
  · rw [observeStep_eq w ql he']
    show (runEffects (updatePrevDistinct w ql.data) ql).prevRef = none
    rw [runEffects_prevRef, hld, (updatePrev_none w hc).1, hp]
  · rw [observeStep_eq w ql he']
    show (runEffects (updatePrevDistinct w ql.data) ql).curRef = none
    rw [runEffects_curRef, hld, (updatePrev_none w hc).2]

theorem loading_run_inv (ql : Query) (hld : ql.data = none) (hle : ql.error = false)
    (n : Nat) (w : World)
    (h : w.prevRef = none ∧ w.curRef = none ∧ w.shutdownComplete = false ∧
      w.triggered = true) :
    (run w (List.replicate n (Event.observe ql))).prevRef = none ∧
    (run w (List.replicate n (Event.observe ql))).curRef = none ∧
    (run w (List.replicate n (Event.observe ql))).shutdownComplete = false ∧
    (run w (List.replicate n (Event.observe ql))).triggered = true := by
  induction n generalizing w with
  | zero => exact h
  | succ n ih =>
    rw [List.replicate_succ, run_cons]
    apply ih
    obtain ⟨hp, hc, hsc, ht⟩ := h
    obtain ⟨p1, p2, p3, p4⟩ := observe_loading_step w ql hld hle hp hc
    exact ⟨p1, p2, p3.trans hsc, p4.trans ht⟩

/-- C10: after a shutdown is invoked and any number of undefined (loading)
observations, no previous distinct status has been observed, so the
usePreviousDistinct result is none and previousStatus defaults to
"running"; hence on the very first defined observation with status
"running" and triggered true, statusToShow resolves to "running" and the
children are rendered. -/
theorem C10_default_previous (b : Bool) (n : Nat) (q ql : Query)
    (hq : q.data = some "running") (hqe : q.error = false) (hql : q.isLoading = false)
    (hld : ql.data = none) (hle : ql.error = false) :
    ((run (init b) (Event.invokeShutdown :: List.replicate n (Event.observe ql))).prevRef =
      none) ∧
    ((run (init b)
      (Event.invokeShutdown :: List.replicate n (Event.observe ql))).prevRef.getD "running" =
      "running") ∧
    statusToShow true q.data "running" = some "running" ∧
    ((observeStep
      (run (init b) (Event.invokeShutdown :: List.replicate n (Event.observe ql)))
      q).lastRender = some Render.childrenView) := by
  rw [run_cons]
  obtain ⟨hp, hc, hsc, ht⟩ := loading_run_inv ql hld hle n
    (step (init b) Event.invokeShutdown) ⟨rfl, rfl, rfl, rfl⟩
  refine ⟨hp, by rw [hp]; rfl, by rw [hq]; decide, ?_⟩
  have he' : (q.error && !(run (step (init b) Event.invokeShutdown)
      (List.replicate n (Event.observe ql))).triggered) = false := by
    rw [hqe]
    simp
  rw [observeStep_eq _ q he']
  show some (renderOutput q
    (updatePrevDistinct (run (step (init b) Event.invokeShutdown)
      (List.replicate n (Event.observe ql))) q.data).triggered
    (updatePrevDistinct (run (step (init b) Event.invokeShutdown)
      (List.replicate n (Event.observe ql))) q.data).shutdownComplete
    ((updatePrevDistinct (run (step (init b) Event.invokeShutdown)
      (List.replicate n (Event.observe ql))) q.data).prevRef.getD "running")) =
    some Render.childrenView
  rw [updatePrev_triggered, updatePrev_shutdownComplete, ht, hsc,
    updatePrev_first_some _ q.data hp hc]
  have hr : renderOutput q true false (Option.getD none "running") = Render.childrenView := by
    unfold renderOutput
    rw [hqe, hql]
    simp [statusToShow, hq, renderSwitch]
  rw [hr]

/-- Witness for C10 at a concrete input. -/
theorem C10_witness :
    (observeStep (run (init false) (Event.invokeShutdown ::
      List.replicate 2 (Event.observe ⟨none, false, true, false, 0⟩)))
      ⟨some "running", false, false, false, 0⟩).lastRender = some Render.childrenView :=
  (C10_default_previous false 2 ⟨some "running", false, false, false, 0⟩
    ⟨none, false, true, false, 0⟩ rfl rfl rfl rfl rfl).2.2.2

end GlobalSystemState
